import Mathlib

/-
Verification of the dialogue-state / extraction-merge core of the PMO
consultant bot (src/main.py) against its natural-language specification.

The Python code is shallowly embedded: the per-user session dictionary
becomes an association list from field names to dynamic values, Python
truthiness and str() become explicit functions on the value type, and the
pattern extractor, extraction merge, completeness check, fallback question
chain, submission builder and webhook result logic are translated
function by function.  Fallible Python operations (the int() builtin)
return Option.
-/

namespace PMOBot

/-- Dynamic value stored in the session's `data` dict: the code stores
JSON-style scalars (null, integers, strings). -/
inductive Value where
  | vNull : Value
  | vInt : Int → Value
  | vStr : String → Value
deriving DecidableEq, Repr

/-- Python truthiness of a stored value (`bool(v)`): None and 0 and the
empty string are falsy. -/
def pyTruthy : Value → Bool
  | .vNull => false
  | .vInt n => !(n == 0)
  | .vStr s => !(s == "")

/-- ASCII lower-casing of one character, modelling `str.lower()`. -/
def lowerChar (c : Char) : Char :=
  if 65 ≤ c.toNat && c.toNat ≤ 90 then Char.ofNat (c.toNat + 32) else c

/-- Lower-case a character list. -/
def lowerChars (l : List Char) : List Char := l.map lowerChar

/-- Lower-case a string, modelling `s.lower()`. -/
def lowerStr (s : String) : String := ⟨lowerChars s.data⟩

/-- Decimal digit character for d < 10. -/
def digitCharOf (d : Nat) : Char := Char.ofNat (48 + d)

/-- Reversed decimal digits of a natural number (fuel-driven, fuel > n). -/
def natDigitsRev (fuel n : Nat) : List Char :=
  match fuel with
  | 0 => []
  | f + 1 => if n < 10 then [digitCharOf n] else digitCharOf (n % 10) :: natDigitsRev f (n / 10)

/-- Decimal string of a natural number. -/
def natToStr (n : Nat) : String := ⟨(natDigitsRev (n + 1) n).reverse⟩

/-- Decimal string of an integer. -/
def intToStr (n : Int) : String :=
  if n < 0 then "-" ++ natToStr n.natAbs else natToStr n.natAbs

/-- Model of Python `str(value)` for the stored scalar values. -/
def pyStrOf : Value → String
  | .vNull => "None"
  | .vInt n => intToStr n
  | .vStr s => s

/-- The sentinel words treated as absence by the extraction merge
(src/main.py line 153). -/
def sentinelList : List String := ["unknown", "null", "none", "", "n/a"]

/-- Session data: the `state["data"]` dict, as an association list in
insertion order. -/
def Data : Type := List (String × Value)

instance : DecidableEq Data := by
  unfold Data
  infer_instance

/-- Dict lookup: `data[k]` / `data.get(k)`. -/
def lookupV : Data → String → Option Value
  | [], _ => none
  | (k', v') :: t, k => if k' = k then some v' else lookupV t k

/-- Dict membership: `k in data`. -/
def hasKey (d : Data) (k : String) : Bool := (lookupV d k).isSome

/-- Dict assignment `data[k] = v`: replaces in place, appends if new. -/
def setV : Data → String → Value → Data
  | [], k, v => [(k, v)]
  | (k', v') :: t, k, v => if k' = k then (k, v) :: t else (k', v') :: setV t k v

/-- Truthiness of `data[k]` with missing keys falsy: models the idiom
`k in data and data[k]` (negated form `k not in data or not data[k]`). -/
def truthyGet (d : Data) (k : String) : Bool :=
  match lookupV d k with
  | some v => pyTruthy v
  | none => false

/-- Guarded dict assignment `if c and k not in data: data[k] = v`
(used repeatedly by the pattern extractor). -/
def setIfAbsent (d : Data) (k : String) (v : Value) (c : Bool) : Data :=
  if c && !hasKey d k then setV d k v else d

/-- One step of the Extraction Orchestrator merge (src/main.py 151-156):
`if value and str(value).lower() not in sentinels:` then
`if key not in data or not data[key]: data[key] = value`. -/
def mergeStep (d : Data) (p : String × Value) : Data :=
  if pyTruthy p.2 && !(sentinelList.contains (lowerStr (pyStrOf p.2))) then
    if !truthyGet d p.1 then setV d p.1 p.2 else d
  else d

/-- The merge loop over `extraction_result["extracted_data"].items()`. -/
def mergeExtraction (d : Data) (ext : List (String × Value)) : Data :=
  ext.foldl mergeStep d

/-- The required-field list of `_handle_collection` (src/main.py 159-166),
in source order. -/
def requiredFields : List String :=
  ["program_name", "program_manager", "program_manager_email",
   "sponsor_name", "update_date", "update_title",
   "key_accomplishments", "upcoming_milestones",
   "total_budget", "budget_spent",
   "overall_status", "status_commentary",
   "open_risks", "open_assumptions", "open_issues", "open_dependencies"]

/-- `missing_fields = [f for f in required_fields if f not in data or not data[f]]`
(src/main.py 168). -/
def missingFields (d : Data) : List String :=
  requiredFields.filter (fun f => !truthyGet d f)

/-- Phase decision of `_handle_collection` (src/main.py 173-182): phase
becomes "complete" iff no field is missing, else stays "collecting". -/
def nextPhaseAfterCollect (d : Data) : String :=
  if missingFields d = [] then "complete" else "collecting"

/-- Modelled from the spec: the claims' "collected" predicate on a value —
non-empty and not one of the sentinel words, case-insensitively.  (An
integer, in particular 0, is non-empty and not a sentinel word.) -/
def specCollected : Value → Bool
  | .vNull => false
  | .vInt _ => true
  | .vStr s => !(s == "") && !(sentinelList.contains (lowerStr s))

/-- Whether `data[f]` exists and is collected in the spec's sense. -/
def specCollectedGet (d : Data) (f : String) : Bool :=
  match lookupV d f with
  | some v => specCollected v
  | none => false

/-- A fully-populated session data dict (all sixteen required fields hold
truthy values), also carrying the initial `schedule_variance` entry. -/
def fullDataOK : Data :=
  [("schedule_variance", .vInt 0),
   ("program_name", .vStr "Apollo"),
   ("program_manager", .vStr "Jane Doe"),
   ("program_manager_email", .vStr "jane@x.com"),
   ("sponsor_name", .vStr "Mike"),
   ("update_date", .vStr "2024-10-23"),
   ("update_title", .vStr "Q4 Update"),
   ("key_accomplishments", .vStr "kickoff done"),
   ("upcoming_milestones", .vStr "design review"),
   ("total_budget", .vInt 500000),
   ("budget_spent", .vInt 200000),
   ("overall_status", .vStr "On Track"),
   ("status_commentary", .vStr "going well"),
   ("open_risks", .vInt 2),
   ("open_assumptions", .vInt 1),
   ("open_issues", .vInt 3),
   ("open_dependencies", .vInt 4)]

/-- The same session data but with `open_risks` = 0, the answer the bot's
own question "How many open risks are there? (enter a number, or 0 if
none)" invites. -/
def fullDataZeroRisks : Data :=
  [("schedule_variance", .vInt 0),
   ("program_name", .vStr "Apollo"),
   ("program_manager", .vStr "Jane Doe"),
   ("program_manager_email", .vStr "jane@x.com"),
   ("sponsor_name", .vStr "Mike"),
   ("update_date", .vStr "2024-10-23"),
   ("update_title", .vStr "Q4 Update"),
   ("key_accomplishments", .vStr "kickoff done"),
   ("upcoming_milestones", .vStr "design review"),
   ("total_budget", .vInt 500000),
   ("budget_spent", .vInt 200000),
   ("overall_status", .vStr "On Track"),
   ("status_commentary", .vStr "going well"),
   ("open_risks", .vInt 0),
   ("open_assumptions", .vInt 1),
   ("open_issues", .vInt 3),
   ("open_dependencies", .vInt 4)]

/- ------------------------------------------------------------------ -/
/- Pattern Extractor (`_extract_simple_data`, src/main.py 84-139).     -/
/- ------------------------------------------------------------------ -/

/-- Digit test for an ASCII character (Python regex `\d`, ASCII range). -/
def isDigitC (c : Char) : Bool := 48 ≤ c.toNat && c.toNat ≤ 57

/-- ASCII letter test. -/
def isAlphaC (c : Char) : Bool :=
  (65 ≤ c.toNat && c.toNat ≤ 90) || (97 ≤ c.toNat && c.toNat ≤ 122)

/-- Word-character test for the regex word boundary `\b` (ASCII `\w`). -/
def isWordChar (c : Char) : Bool := isDigitC c || isAlphaC c || c == '_'

/-- Whether `pat` is a prefix of `hay` (character lists). -/
def prefixMatch : List Char → List Char → Bool
  | [], _ => true
  | _ :: _, [] => false
  | p :: ps, c :: cs => p == c && prefixMatch ps cs

/-- Whether `pat` occurs as a contiguous substring of `hay`, modelling
Python's `pat in hay`. -/
def containsSub (pat : List Char) : List Char → Bool
  | [] => prefixMatch pat []
  | c :: t => prefixMatch pat (c :: t) || containsSub pat t

/-- Numeric value of a list of decimal digit characters. -/
def natOfDigits (l : List Char) : Nat :=
  l.foldl (fun n c => 10 * n + (c.toNat - 48)) 0

/-- Scanner behind `re.search(r'\b(\d+)\b', message)`: the first maximal
digit run flanked by non-word characters (or the ends of the string).
Arguments: remaining input, current digit run (reversed), whether the run
started at a word boundary, whether the previous character was a word
character. -/
def ffiAux : List Char → List Char → Bool → Bool → Option Nat
  | [], cur, curOk, _ =>
    if cur.isEmpty then none
    else if curOk then some (natOfDigits cur.reverse) else none
  | c :: rest, cur, curOk, prevWord =>
    if isDigitC c then
      if cur.isEmpty then ffiAux rest [c] (!prevWord) true
      else ffiAux rest (c :: cur) curOk true
    else
      if !cur.isEmpty && curOk && !isWordChar c then some (natOfDigits cur.reverse)
      else ffiAux rest [] true (isWordChar c)

/-- First standalone integer token of the message
(`re.search(r'\b(\d+)\b', message)`, src/main.py 98). -/
def findFirstInt (msg : String) : Option Nat := ffiAux msg.data [] true false

/-- Scanner behind `re.findall(r'\d+(?:,\d{3})*(?:\.\d+)?', s)` on a
comma-stripped string: all maximal digit runs, each with an optional
fractional part which `int(float(n))` truncates away, so only the integer
part is kept.  (Faithful to `int(float(tok))` for tokens below 2^53.)
Arguments: remaining input, current integer-part run (reversed), whether
we are currently skipping a fractional part. -/
def fanAux : List Char → List Char → Bool → List Nat
  | [], cur, _ => if cur.isEmpty then [] else [natOfDigits cur.reverse]
  | c :: rest, cur, inFrac =>
    if inFrac then
      if isDigitC c then fanAux rest cur true
      else natOfDigits cur.reverse :: fanAux rest [] false
    else if isDigitC c then fanAux rest (c :: cur) false
    else if cur.isEmpty then fanAux rest [] false
    else if c == '.' then
      match rest with
      | [] => [natOfDigits cur.reverse]
      | d :: _ =>
        if isDigitC d then fanAux rest cur true
        else natOfDigits cur.reverse :: fanAux rest [] false
    else natOfDigits cur.reverse :: fanAux rest [] false

/-- All numeric substrings of the message after `message.replace(',', '')`
(src/main.py 123-126), as truncated integers. -/
def findAllNumbers (msg : String) : List Nat :=
  fanAux (msg.data.filter (fun c => !(c == ','))) [] false

/-- Local-part character of the email regex class `[A-Za-z0-9._%+-]`. -/
def isLocalChar (c : Char) : Bool :=
  isDigitC c || isAlphaC c || c == '.' || c == '_' || c == '%' || c == '+' || c == '-'

/-- Domain character of the email regex class `[A-Za-z0-9.-]`. -/
def isDomainChar (c : Char) : Bool := isDigitC c || isAlphaC c || c == '.' || c == '-'

/-- Simplified model of `re.search` with the email pattern of
src/main.py line 90: scans for an `@` with a non-empty run of local-part
characters before it and a domain run containing a dot whose final label
is at least two letters. -/
def findEmailAux : List Char → List Char → Option String
  | [], _ => none
  | c :: rest, prevRev =>
    if c == '@' then
      let localRev := prevRev.takeWhile isLocalChar
      let domain := rest.takeWhile isDomainChar
      let tld := domain.reverse.takeWhile (fun ch => !(ch == '.'))
      if !localRev.isEmpty && domain.contains '.' && 2 ≤ tld.length &&
          tld.all isAlphaC then
        some ⟨localRev.reverse ++ c :: domain⟩
      else findEmailAux rest (c :: prevRev)
    else findEmailAux rest (c :: prevRev)

/-- First email-shaped substring of the message. -/
def findEmail (msg : String) : Option String := findEmailAux msg.data []

/-- Email rule (src/main.py 90-92): assign the first email match to
`program_manager_email` if that field is not already set. -/
def emailStep (msg : String) (d : Data) : Data :=
  match findEmail msg with
  | some e => setIfAbsent d "program_manager_email" (.vStr e) true
  | none => d

/-- The if/elif chain of the bare-integer RAID rule, over the result of
the standalone-integer search. -/
def raidAssign (ql : List Char) (num : Option Nat) (d : Data) : Data :=
  match num with
  | none => d
  | some n =>
    if containsSub "risk".data ql then setV d "open_risks" (.vInt (Int.ofNat n))
    else if containsSub "assumption".data ql then setV d "open_assumptions" (.vInt (Int.ofNat n))
    else if containsSub "issue".data ql then setV d "open_issues" (.vInt (Int.ofNat n))
    else if containsSub "dependenc".data ql then setV d "open_dependencies" (.vInt (Int.ofNat n))
    else d

/-- Bare-integer RAID rule (src/main.py 98-107): if the lowered current
question contains a RAID keyword and the message has a standalone integer,
assign it to the corresponding count field, overwriting unconditionally.
The four branches form an if/elif chain in keyword order. -/
def raidNumberStep (ql : List Char) (msg : String) (d : Data) : Data :=
  raidAssign ql (findFirstInt msg) d

/-- Negative/zero rule (src/main.py 110-118): if the lowered message
contains one of "none"/"zero"/"no "/"0", set each RAID count whose keyword
occurs in the lowered question to 0 — but only if not already set. -/
def zeroStep (ql msgl : List Char) (d : Data) : Data :=
  if containsSub "none".data msgl || containsSub "zero".data msgl ||
      containsSub "no ".data msgl || containsSub "0".data msgl then
    let d1 := setIfAbsent d "open_risks" (.vInt 0) (containsSub "risk".data ql)
    let d2 := setIfAbsent d1 "open_assumptions" (.vInt 0) (containsSub "assumption".data ql)
    let d3 := setIfAbsent d2 "open_issues" (.vInt 0) (containsSub "issue".data ql)
    setIfAbsent d3 "open_dependencies" (.vInt 0) (containsSub "dependenc".data ql)
  else d

/-- Budget rule (src/main.py 121-131): when the lowered question or
message mentions "budget", collect all numbers of the comma-stripped
message; if any were found and (the message mentions "total" or
`total_budget` is unset), assign the first to `total_budget` and the
second (if present) to `budget_spent`, each only when not already set. -/
def budgetNums (msgl : List Char) (nums : List Nat) (d : Data) : Data :=
  match nums with
  | [] => d
  | n1 :: rest =>
    if containsSub "total".data msgl || !hasKey d "total_budget" then
      let d1 := setIfAbsent d "total_budget" (.vInt (Int.ofNat n1)) true
      match rest with
      | [] => d1
      | n2 :: _ => setIfAbsent d1 "budget_spent" (.vInt (Int.ofNat n2)) true
    else d

def budgetStep (ql msgl : List Char) (msg : String) (d : Data) : Data :=
  if containsSub "budget".data ql || containsSub "budget".data msgl then
    budgetNums msgl (findAllNumbers msg) d
  else d

/-- Status rule (src/main.py 134-139): case-insensitive keyword match sets
`overall_status` to the canonical label, overwriting unconditionally. -/
def statusStep (msgl : List Char) (d : Data) : Data :=
  if containsSub "on track".data msgl then setV d "overall_status" (.vStr "On Track")
  else if containsSub "at risk".data msgl then setV d "overall_status" (.vStr "At Risk")
  else if containsSub "off track".data msgl then setV d "overall_status" (.vStr "Off Track")
  else d

/-- `_extract_simple_data` (src/main.py 84-139): the five rules in source
order, over the lowered current question `q` and message `msg`. -/
def extractSimpleData (q msg : String) (d : Data) : Data :=
  statusStep (lowerChars msg.data)
    (budgetStep (lowerChars q.data) (lowerChars msg.data) msg
      (zeroStep (lowerChars q.data) (lowerChars msg.data)
        (raidNumberStep (lowerChars q.data) msg (emailStep msg d))))

/-- The four RAID keywords of the bare-integer rule. -/
inductive RaidKw where
  | risk
  | assumption
  | issue
  | dependenc
deriving DecidableEq, Repr

/-- The keyword text searched in the current question. -/
def raidKwChars : RaidKw → List Char
  | .risk => "risk".data
  | .assumption => "assumption".data
  | .issue => "issue".data
  | .dependenc => "dependenc".data

/-- The count field corresponding to each RAID keyword. -/
def raidField : RaidKw → String
  | .risk => "open_risks"
  | .assumption => "open_assumptions"
  | .issue => "open_issues"
  | .dependenc => "open_dependencies"

/-- The lowered question contains the given RAID keyword and none of the
other three (the unambiguous case in which "the corresponding count
field" of claim C5 is well defined). -/
def exclusiveKw (ql : List Char) : RaidKw → Bool
  | .risk =>
    containsSub "risk".data ql && !containsSub "assumption".data ql &&
      !containsSub "issue".data ql && !containsSub "dependenc".data ql
  | .assumption =>
    !containsSub "risk".data ql && containsSub "assumption".data ql &&
      !containsSub "issue".data ql && !containsSub "dependenc".data ql
  | .issue =>
    !containsSub "risk".data ql && !containsSub "assumption".data ql &&
      containsSub "issue".data ql && !containsSub "dependenc".data ql
  | .dependenc =>
    !containsSub "risk".data ql && !containsSub "assumption".data ql &&
      !containsSub "issue".data ql && containsSub "dependenc".data ql

/- ------------------------------------------------------------------ -/
/- Deterministic fallback of `_get_claude_help` (src/main.py 261-291). -/
/- ------------------------------------------------------------------ -/

/-- The question returned when no field of the fallback chain is missing
(src/main.py 291). -/
def reviewFallback : String := "Let me review what we have..."

/-- The fallback if/elif chain of `_get_claude_help` (src/main.py
262-289): field checked for membership, paired with its canned question,
in source order. -/
def cannedTable : List (String × String) :=
  [("program_name", "What\x27s the name of your program?"),
   ("program_manager", "What\x27s your name (as the program manager)?"),
   ("program_manager_email", "What\x27s your email address?"),
   ("sponsor_name", "Who is the executive sponsor for this program?"),
   ("overall_status", "What\x27s the overall program status? (On Track / At Risk / Off Track)"),
   ("status_commentary", "Can you provide a brief commentary on the program status?"),
   ("key_accomplishments", "What are the key accomplishments so far?"),
   ("upcoming_milestones", "What are the upcoming milestones?"),
   ("total_budget", "What\x27s the total program budget? (just the number)"),
   ("budget_spent", "How much of the budget has been spent so far?"),
   ("open_risks", "How many open risks are there? (enter a number, or 0 if none)"),
   ("open_issues", "How many open issues? (enter a number, or 0 if none)"),
   ("open_assumptions", "How many assumptions? (enter a number, or 0 if none)"),
   ("open_dependencies", "How many dependencies? (enter a number, or 0 if none)")]

/-- Walk the chain: return the canned question of the first field whose
key is absent from the session data (`"f" not in current_data`), or the
review message when every field is present. -/
def walkFallback : List (String × String) → Data → String
  | [], _ => reviewFallback
  | (f, q) :: rest, d => if hasKey d f then walkFallback rest d else q

/-- The deterministic fallback next question. -/
def fallbackQuestion (d : Data) : String := walkFallback cannedTable d

/- ------------------------------------------------------------------ -/
/- Submission Builder (`_prepare_submission`, src/main.py 300-334).    -/
/- ------------------------------------------------------------------ -/

/-- ASCII whitespace, for the `int()` builtin's tolerated surroundings. -/
def isSpaceC (c : Char) : Bool := c == ' ' || c == '\t' || c == '\n' || c == '\r'

/-- All-decimal-digit parse of a non-empty character list. -/
def parseDigits : List Char → Option Nat
  | [] => none
  | l => if l.all isDigitC then some (natOfDigits l) else none

/-- Model of Python `int(s)` on a string: optional surrounding whitespace,
optional sign, then decimal digits; anything else raises (returns none). -/
def pyIntOfStr (s : String) : Option Int :=
  match (s.data.dropWhile isSpaceC).reverse.dropWhile isSpaceC |>.reverse with
  | '+' :: rest => (parseDigits rest).map Int.ofNat
  | '-' :: rest => (parseDigits rest).map (fun n => -(Int.ofNat n))
  | cs => (parseDigits cs).map Int.ofNat

/-- Model of Python `int(v)` on a stored value: identity on integers,
string parse on strings, a TypeError (none) on null. -/
def pyIntValue : Value → Option Int
  | .vInt n => some n
  | .vStr s => pyIntOfStr s
  | .vNull => none

/-- `int(data.get(k, 0))` as used by the builder (src/main.py 319-333):
the default 0 applies only when the key is absent; the `int()` call on a
present value may fail. -/
def coerceIntField (d : Data) (k : String) : Option Int :=
  pyIntValue ((lookupV d k).getD (.vInt 0))

/-- The default-substitution step of `_prepare_submission` (src/main.py
305-308): fill `update_date` and `update_title` when the keys are absent. -/
def setSubmissionDefaults (d : Data) : Data :=
  let d1 := if hasKey d "update_date" then d else setV d "update_date" (.vStr "2024-10-23")
  if hasKey d1 "update_title" then d1 else setV d1 "update_title" (.vStr "Program Update")

/-- The outbound webhook payload (src/main.py 310-334). -/
structure WebhookPayload where
  program_name : Value
  program_manager : Value
  program_manager_email : Value
  sponsor_name : Value
  update_date : Option Value
  update_title : Option Value
  key_accomplishments : Value
  upcoming_milestones : Value
  total_budget : Int
  budget_spent : Int
  schedule_variance : Int
  overall_status : Value
  status_commentary : Value
  raid_risks : Int
  raid_assumptions : Int
  raid_issues : Int
  raid_dependencies : Int
  open_risks : Int
  open_assumptions : Int
  open_issues : Int
  open_dependencies : Int
deriving DecidableEq, Repr

/-- The `webhook_data` construction of `_prepare_submission` (src/main.py
310-334).  The `int(...)` coercions are fallible: a none result models the
ValueError the Python builtin raises on a non-numeric string, which would
propagate out of the handler. -/
def buildWebhookData (d : Data) : Option WebhookPayload := do
  let tb ← coerceIntField d "total_budget"
  let bs ← coerceIntField d "budget_spent"
  let r ← coerceIntField d "open_risks"
  let a ← coerceIntField d "open_assumptions"
  let i ← coerceIntField d "open_issues"
  let dep ← coerceIntField d "open_dependencies"
  pure
    { program_name := (lookupV d "program_name").getD (.vStr "Unknown"),
      program_manager := (lookupV d "program_manager").getD (.vStr "Unknown"),
      program_manager_email := (lookupV d "program_manager_email").getD (.vStr ""),
      sponsor_name := (lookupV d "sponsor_name").getD (.vStr "Unknown"),
      update_date := lookupV d "update_date",
      update_title := lookupV d "update_title",
      key_accomplishments := (lookupV d "key_accomplishments").getD (.vStr "None"),
      upcoming_milestones := (lookupV d "upcoming_milestones").getD (.vStr "None"),
      total_budget := tb,
      budget_spent := bs,
      schedule_variance := 0,
      overall_status := (lookupV d "overall_status").getD (.vStr "On Track"),
      status_commentary := (lookupV d "status_commentary").getD (.vStr "No commentary"),
      raid_risks := r,
      raid_assumptions := a,
      raid_issues := i,
      raid_dependencies := dep,
      open_risks := r,
      open_assumptions := a,
      open_issues := i,
      open_dependencies := dep }

/-- `_prepare_submission`'s data path: defaults, then payload build. -/
def prepareSubmissionData (d : Data) : Option WebhookPayload :=
  buildWebhookData (setSubmissionDefaults d)

/-- A completed session whose `total_budget` holds a non-numeric string —
truthy and non-sentinel, so the completeness check passes. -/
def badBudgetData : Data :=
  [("schedule_variance", .vInt 0),
   ("program_name", .vStr "Apollo"),
   ("program_manager", .vStr "Jane Doe"),
   ("program_manager_email", .vStr "jane@x.com"),
   ("sponsor_name", .vStr "Mike"),
   ("update_date", .vStr "2024-10-23"),
   ("update_title", .vStr "Q4 Update"),
   ("key_accomplishments", .vStr "kickoff done"),
   ("upcoming_milestones", .vStr "design review"),
   ("total_budget", .vStr "not a number"),
   ("budget_spent", .vInt 200000),
   ("overall_status", .vStr "On Track"),
   ("status_commentary", .vStr "going well"),
   ("open_risks", .vInt 2),
   ("open_assumptions", .vInt 1),
   ("open_issues", .vInt 3),
   ("open_dependencies", .vInt 4)]

/- ------------------------------------------------------------------ -/
/- Webhook Client (`_submit_to_webhook`, src/main.py 356-365).         -/
/- ------------------------------------------------------------------ -/

/-- The fixed webhook endpoint (src/main.py 15). -/
def webhookUrl : String :=
  "https://natsha.pythonanywhere.com/webhook/fortnightly-update-direct"

/-- The client timeout passed to the HTTP client (src/main.py 359). -/
def webhookTimeoutSeconds : Nat := 30

/-- Result logic of `_submit_to_webhook`: the single POST's transport
outcome is either a response status code or a raised exception message;
the function returns `status == 200` in the first case and catches every
exception to return false in the second.  Total, so nothing escapes the
boundary. -/
def submitToWebhook (outcome : Except String Nat) : Bool :=
  match outcome with
  | .ok status => status == 200
  | .error _ => false

/- ------------------------------------------------------------------ -/
/- Dialogue State Machine (src/main.py 27-82, 293-298).                -/
/- ------------------------------------------------------------------ -/

/-- A per-user session record of `conversation_states` (src/main.py
36-44): phase string, collected data, history of (role, text) turns and
the last asked question (None before any question was asked). -/
structure Session where
  phase : String
  data : Data
  history : List (String × String)
  currentQuestion : Option String

/-- The fresh-session data (src/main.py 39-41). -/
def initData : Data := [("schedule_variance", .vInt 0)]

/-- The fixed welcome message of `_handle_intro` (src/main.py 72-82);
the source's leading emoji is omitted, the text is otherwise verbatim. -/
def welcomeMessage : String :=
  "Hi! I\x27m your AI-powered PMO consultant. I\x27ll help you create a comprehensive program plan and deliver 5 professional PowerPoint reports to your inbox.\n\n**Let\x27s get started! Tell me about your program.** You can share as much or as little as you want, and I\x27ll ask follow-up questions for anything missing.\n\n**I need to know:**\n- Program name, manager, sponsor, and your email\n- Budget information\n- Status and progress\n- RAID items (Risks, Assumptions, Issues, Dependencies)\n\nGo ahead and tell me what you know!"

/-- `_handle_intro` (src/main.py 69-82): flip the phase to collecting and
return the fixed welcome text; the triggering message is ignored. -/
def handleIntro (s : Session) : Session × String :=
  ({ s with phase := "collecting" }, welcomeMessage)

/-- `_handle_completion` (src/main.py 293-298): reset phase, data and
history — but not `current_question` — then rerun the intro handler on
the same message. -/
def handleCompletion (s : Session) (_msg : String) : Session × String :=
  handleIntro { s with phase := "intro", data := initData, history := [] }

/- ------------------------------------------------------------------ -/
/- Basic lemmas about the association-list dictionary.                 -/
/- ------------------------------------------------------------------ -/

theorem lookup_setV (d : Data) (k k' : String) (v : Value) :
    lookupV (setV d k v) k' = if k = k' then some v else lookupV d k' := by
  induction d with
  | nil =>
    by_cases h : k = k' <;> simp [setV, lookupV, h]
  | cons p t ih =>
    obtain ⟨a, b⟩ := p
    by_cases hak : a = k
    · subst hak
      by_cases h : a = k' <;> simp [setV, lookupV, h]
    · by_cases h : a = k'
      · subst h
        have hkk' : ¬ k = a := fun hc => hak hc.symm
        simp [setV, lookupV, hak, hkk']
      · simp [setV, lookupV, hak, h, ih]

theorem lookup_setV_self (d : Data) (k : String) (v : Value) :
    lookupV (setV d k v) k = some v := by
  rw [lookup_setV]
  simp

theorem lookup_setV_ne (d : Data) (k k' : String) (v : Value) (h : k ≠ k') :
    lookupV (setV d k v) k' = lookupV d k' := by
  rw [lookup_setV]
  simp [h]

theorem lookup_setIfAbsent_ne (d : Data) (k k' : String) (v : Value) (c : Bool)
    (h : k ≠ k') : lookupV (setIfAbsent d k v c) k' = lookupV d k' := by
  unfold setIfAbsent
  split
  · exact lookup_setV_ne d k k' v h
  · rfl

theorem setIfAbsent_keeps (d : Data) (k k' : String) (v : Value) (c : Bool)
    (h : hasKey d k' = true) :
    lookupV (setIfAbsent d k v c) k' = lookupV d k' := by
  by_cases hk : k = k'
  · subst hk
    unfold setIfAbsent
    have : (c && !hasKey d k) = false := by
      rw [h]
      simp
    rw [this]
    simp
  · exact lookup_setIfAbsent_ne d k k' v c hk

theorem hasKey_congr_of_lookup (d d' : Data) (k : String)
    (h : lookupV d k = lookupV d' k) : hasKey d k = hasKey d' k := by
  unfold hasKey
  rw [h]

theorem hasKey_of_lookup_eq (d d' : Data) (k : String)
    (h : lookupV d' k = lookupV d k) (hd : hasKey d k = true) : hasKey d' k = true := by
  unfold hasKey
  rw [h]
  exact hd

theorem setIfAbsent_sets (d : Data) (k : String) (v : Value)
    (h : hasKey d k = false) : setIfAbsent d k v true = setV d k v := by
  unfold setIfAbsent
  rw [h]
  simp

theorem hasKey_setIfAbsent_ne (d : Data) (k k' : String) (v : Value) (c : Bool)
    (h : k ≠ k') : hasKey (setIfAbsent d k v c) k' = hasKey d k' := by
  unfold hasKey
  rw [lookup_setIfAbsent_ne d k k' v c h]

/- ------------------------------------------------------------------ -/
/- Preservation lemmas for the pattern extractor's five rules.         -/
/- ------------------------------------------------------------------ -/

theorem emailStep_lookup_ne (msg : String) (d : Data) (k : String)
    (h : k ≠ "program_manager_email") :
    lookupV (emailStep msg d) k = lookupV d k := by
  unfold emailStep
  cases findEmail msg with
  | none => rfl
  | some e => exact lookup_setIfAbsent_ne _ _ _ _ _ (Ne.symm h)

theorem raidAssign_lookup_ne (ql : List Char) (num : Option Nat) (d : Data) (k : String)
    (h1 : k ≠ "open_risks") (h2 : k ≠ "open_assumptions")
    (h3 : k ≠ "open_issues") (h4 : k ≠ "open_dependencies") :
    lookupV (raidAssign ql num d) k = lookupV d k := by
  cases num with
  | none => rfl
  | some n =>
    simp only [raidAssign]
    split
    · exact lookup_setV_ne _ _ _ _ (Ne.symm h1)
    · split
      · exact lookup_setV_ne _ _ _ _ (Ne.symm h2)
      · split
        · exact lookup_setV_ne _ _ _ _ (Ne.symm h3)
        · split
          · exact lookup_setV_ne _ _ _ _ (Ne.symm h4)
          · rfl

theorem raidNumberStep_lookup_ne (ql : List Char) (msg : String) (d : Data) (k : String)
    (h1 : k ≠ "open_risks") (h2 : k ≠ "open_assumptions")
    (h3 : k ≠ "open_issues") (h4 : k ≠ "open_dependencies") :
    lookupV (raidNumberStep ql msg d) k = lookupV d k := by
  unfold raidNumberStep
  exact raidAssign_lookup_ne ql (findFirstInt msg) d k h1 h2 h3 h4

theorem raidAssign_sets_risk (ql : List Char) (d : Data) (n : Nat)
    (hq : containsSub "risk".data ql = true) :
    lookupV (raidAssign ql (some n) d) "open_risks" = some (.vInt (Int.ofNat n)) := by
  simp only [raidAssign]
  rw [if_pos hq]
  exact lookup_setV_self _ _ _

theorem raidNumberStep_sets_risk (ql : List Char) (msg : String) (d : Data) (n : Nat)
    (hq : containsSub "risk".data ql = true) (hn : findFirstInt msg = some n) :
    lookupV (raidNumberStep ql msg d) "open_risks" = some (.vInt (Int.ofNat n)) := by
  unfold raidNumberStep
  rw [hn]
  exact raidAssign_sets_risk ql d n hq

theorem raidAssign_sets (ql : List Char) (d : Data) (n : Nat)
    (kw : RaidKw) (hx : exclusiveKw ql kw = true) :
    lookupV (raidAssign ql (some n) d) (raidField kw) = some (.vInt (Int.ofNat n)) := by
  cases kw with
  | risk =>
    simp only [exclusiveKw, Bool.and_eq_true, Bool.not_eq_true'] at hx
    obtain ⟨⟨⟨ha, hb⟩, hc⟩, hd⟩ := hx
    simp only [raidAssign, raidField]
    rw [if_pos ha]
    exact lookup_setV_self _ _ _
  | assumption =>
    simp only [exclusiveKw, Bool.and_eq_true, Bool.not_eq_true'] at hx
    obtain ⟨⟨⟨ha, hb⟩, hc⟩, hd⟩ := hx
    simp only [raidAssign, raidField]
    rw [if_neg (by rw [ha]; exact Bool.false_ne_true), if_pos hb]
    exact lookup_setV_self _ _ _
  | issue =>
    simp only [exclusiveKw, Bool.and_eq_true, Bool.not_eq_true'] at hx
    obtain ⟨⟨⟨ha, hb⟩, hc⟩, hd⟩ := hx
    simp only [raidAssign, raidField]
    rw [if_neg (by rw [ha]; exact Bool.false_ne_true),
      if_neg (by rw [hb]; exact Bool.false_ne_true), if_pos hc]
    exact lookup_setV_self _ _ _
  | dependenc =>
    simp only [exclusiveKw, Bool.and_eq_true, Bool.not_eq_true'] at hx
    obtain ⟨⟨⟨ha, hb⟩, hc⟩, hd⟩ := hx
    simp only [raidAssign, raidField]
    rw [if_neg (by rw [ha]; exact Bool.false_ne_true),
      if_neg (by rw [hb]; exact Bool.false_ne_true),
      if_neg (by rw [hc]; exact Bool.false_ne_true), if_pos hd]
    exact lookup_setV_self _ _ _

theorem raidNumberStep_sets (ql : List Char) (msg : String) (d : Data) (n : Nat)
    (kw : RaidKw) (hx : exclusiveKw ql kw = true) (hn : findFirstInt msg = some n) :
    lookupV (raidNumberStep ql msg d) (raidField kw) = some (.vInt (Int.ofNat n)) := by
  unfold raidNumberStep
  rw [hn]
  exact raidAssign_sets ql d n kw hx

theorem zeroStep_lookup (ql msgl : List Char) (d : Data) (k : String)
    (h : hasKey d k = true) : lookupV (zeroStep ql msgl d) k = lookupV d k := by
  unfold zeroStep
  split
  · have e1 := setIfAbsent_keeps d "open_risks" k (.vInt 0) (containsSub "risk".data ql) h
    have h1 := hasKey_of_lookup_eq _ _ _ e1 h
    have e2 := setIfAbsent_keeps _ "open_assumptions" k (.vInt 0)
      (containsSub "assumption".data ql) h1
    have h2 := hasKey_of_lookup_eq _ _ _ e2 h1
    have e3 := setIfAbsent_keeps _ "open_issues" k (.vInt 0)
      (containsSub "issue".data ql) h2
    have h3 := hasKey_of_lookup_eq _ _ _ e3 h2
    have e4 := setIfAbsent_keeps _ "open_dependencies" k (.vInt 0)
      (containsSub "dependenc".data ql) h3
    rw [e4, e3, e2, e1]
  · rfl

theorem zeroStep_lookup_ne (ql msgl : List Char) (d : Data) (k : String)
    (h1 : k ≠ "open_risks") (h2 : k ≠ "open_assumptions")
    (h3 : k ≠ "open_issues") (h4 : k ≠ "open_dependencies") :
    lookupV (zeroStep ql msgl d) k = lookupV d k := by
  unfold zeroStep
  split
  · rw [lookup_setIfAbsent_ne _ _ _ _ _ (Ne.symm h4),
      lookup_setIfAbsent_ne _ _ _ _ _ (Ne.symm h3),
      lookup_setIfAbsent_ne _ _ _ _ _ (Ne.symm h2),
      lookup_setIfAbsent_ne _ _ _ _ _ (Ne.symm h1)]
  · rfl

theorem budgetNums_lookup (msgl : List Char) (nums : List Nat) (d : Data) (k : String)
    (h : hasKey d k = true) : lookupV (budgetNums msgl nums d) k = lookupV d k := by
  cases nums with
  | nil => rfl
  | cons n1 rest =>
    cases rest with
    | nil =>
      simp only [budgetNums]
      split
      · exact setIfAbsent_keeps _ _ _ _ _ h
      · rfl
    | cons n2 t =>
      simp only [budgetNums]
      split
      · have e1 := setIfAbsent_keeps d "total_budget" k (.vInt (Int.ofNat n1)) true h
        have h1 := hasKey_of_lookup_eq _ _ _ e1 h
        have e2 := setIfAbsent_keeps _ "budget_spent" k (.vInt (Int.ofNat n2)) true h1
        rw [e2, e1]
      · rfl

theorem budgetStep_lookup (ql msgl : List Char) (msg : String) (d : Data) (k : String)
    (h : hasKey d k = true) : lookupV (budgetStep ql msgl msg d) k = lookupV d k := by
  unfold budgetStep
  split
  · exact budgetNums_lookup msgl (findAllNumbers msg) d k h
  · rfl

theorem statusStep_lookup_ne (msgl : List Char) (d : Data) (k : String)
    (h : k ≠ "overall_status") : lookupV (statusStep msgl d) k = lookupV d k := by
  unfold statusStep
  split
  · exact lookup_setV_ne _ _ _ _ (Ne.symm h)
  · split
    · exact lookup_setV_ne _ _ _ _ (Ne.symm h)
    · split
      · exact lookup_setV_ne _ _ _ _ (Ne.symm h)
      · rfl

theorem budgetNums_characterization (msgl : List Char) (d : Data)
    (n1 : Nat) (rest : List Nat) :
    (hasKey d "total_budget" = false →
       lookupV (budgetNums msgl (n1 :: rest) d) "total_budget" = some (.vInt (Int.ofNat n1)) ∧
       (∀ n2 t, rest = n2 :: t → hasKey d "budget_spent" = false →
         lookupV (budgetNums msgl (n1 :: rest) d) "budget_spent" = some (.vInt (Int.ofNat n2)))) ∧
    (hasKey d "total_budget" = true → containsSub "total".data msgl = false →
       budgetNums msgl (n1 :: rest) d = d) := by
  constructor
  · intro hT
    have hguard : (containsSub "total".data msgl || !hasKey d "total_budget") = true := by
      rw [hT]
      simp
    cases rest with
    | nil =>
      simp only [budgetNums]
      rw [if_pos hguard]
      constructor
      · rw [setIfAbsent_sets d _ _ hT]
        exact lookup_setV_self _ _ _
      · intro n2 t hcontra
        cases hcontra
    | cons n2 t =>
      simp only [budgetNums]
      rw [if_pos hguard]
      have eT : lookupV (setIfAbsent d "total_budget" (.vInt (Int.ofNat n1)) true)
          "total_budget" = some (.vInt (Int.ofNat n1)) := by
        rw [setIfAbsent_sets d _ _ hT]
        exact lookup_setV_self _ _ _
      constructor
      · rw [lookup_setIfAbsent_ne _ _ _ _ _ (by decide)]
        exact eT
      · intro n2' t' heq hS
        injection heq with hn2 ht2
        subst hn2
        have hS1 : hasKey (setIfAbsent d "total_budget" (.vInt (Int.ofNat n1)) true)
            "budget_spent" = false := by
          rw [hasKey_setIfAbsent_ne _ _ _ _ _ (by decide)]
          exact hS
        rw [setIfAbsent_sets _ _ _ hS1]
        exact lookup_setV_self _ _ _
  · intro hT htot
    have hg : ¬ ((containsSub "total".data msgl || !hasKey d "total_budget") = true) := by
      rw [htot, hT]
      simp
    simp only [budgetNums]
    rw [if_neg hg]

theorem budgetStep_eq_budgetNums (ql msgl : List Char) (msg : String) (d : Data)
    (hb : (containsSub "budget".data ql || containsSub "budget".data msgl) = true) :
    budgetStep ql msgl msg d = budgetNums msgl (findAllNumbers msg) d := by
  unfold budgetStep
  rw [if_pos hb]

/- ------------------------------------------------------------------ -/
/- Claim theorems: C1 and C2.                                          -/
/- ------------------------------------------------------------------ -/

/-- Claim C1 (code bug evidence): a session whose sixteen required fields
are all present and all "collected" in the spec's sense, but with the
integer count `open_risks` = 0, is still reported as missing `open_risks`
by `_handle_collection`'s truthiness-based completeness check, so the
phase stays "collecting" and never transitions to "complete". -/
theorem c1_zero_count_blocks_completion :
    requiredFields.all (specCollectedGet fullDataZeroRisks) = true ∧
    missingFields fullDataZeroRisks = ["open_risks"] ∧
    nextPhaseAfterCollect fullDataZeroRisks = "collecting" ∧
    missingFields fullDataOK = [] ∧
    nextPhaseAfterCollect fullDataOK = "complete" := by
  refine ⟨by decide, by decide, ?_, by decide, ?_⟩
  · unfold nextPhaseAfterCollect
    rw [if_neg (by decide)]
  · unfold nextPhaseAfterCollect
    rw [if_pos (by decide)]

/-- Claim C2, counterexample: `open_risks` holds the present value 0
(non-null, non-empty, not a sentinel string — indeed collected in the
spec's sense), yet the merge overwrites it with a later extraction value
7, because the guard `key not in data or not data[key]` treats the
integer 0 as unset. -/
theorem c2_counterexample_zero_overwritten :
    specCollected (Value.vInt 0) = true ∧
    Value.vInt 7 ≠ Value.vInt 0 ∧
    lookupV (mergeExtraction [("open_risks", Value.vInt 0)]
        [("open_risks", Value.vInt 7)]) "open_risks" = some (Value.vInt 7) := by
  refine ⟨by decide, by decide, ?_⟩
  decide

/-- Claim C2, amended: the Extraction Orchestrator's merge never
overwrites a field whose current value is truthy (a non-zero integer or
non-empty string); only fields holding falsy values (0, "", null) can be
replaced. -/
theorem c2_merge_preserves_truthy_fields (d : Data) (ext : List (String × Value))
    (k : String) (v : Value) (hv : lookupV d k = some v) (ht : pyTruthy v = true) :
    lookupV (mergeExtraction d ext) k = some v := by
  induction ext generalizing d with
  | nil => exact hv
  | cons p t ih =>
    have hstep : lookupV (mergeStep d p) k = some v := by
      unfold mergeStep
      split
      · split
        · rename_i hguard
          by_cases hk : p.1 = k
          · exfalso
            rw [hk] at hguard
            unfold truthyGet at hguard
            rw [hv] at hguard
            simp only [ht] at hguard
            simp at hguard
          · rw [lookup_setV_ne d p.1 k p.2 hk]
            exact hv
        · exact hv
      · exact hv
    exact ih (mergeStep d p) hstep

/-- Claim C2, witness for the amended theorem: a truthy string field
survives a merge that tries to replace it. -/
theorem c2_witness :
    lookupV (mergeExtraction [("program_name", Value.vStr "Apollo")]
        [("program_name", Value.vStr "Artemis"), ("sponsor_name", Value.vStr "Mike")])
      "program_name" = some (Value.vStr "Apollo") :=
  c2_merge_preserves_truthy_fields
    [("program_name", Value.vStr "Apollo")]
    [("program_name", Value.vStr "Artemis"), ("sponsor_name", Value.vStr "Mike")]
    "program_name" (Value.vStr "Apollo") (by decide) (by decide)

/- ------------------------------------------------------------------ -/
/- Claim theorems: C4, C5 and C6.                                      -/
/- ------------------------------------------------------------------ -/

/-- Claim C4, counterexample: with `open_risks` already 5, a question
containing "risk" and the message "10", the bare-integer rule of
`_extract_simple_data` overwrites unconditionally: `open_risks` becomes
10, not 5 as claimed. -/
theorem c4_counterexample_overwrite_ten :
    lookupV (extractSimpleData "How many open risks are there?" "10"
        [("open_risks", Value.vInt 5)]) "open_risks" = some (Value.vInt 10) ∧
    Value.vInt 10 ≠ Value.vInt 5 :=
  ⟨by decide, by decide⟩

/-- Claim C4, amended: the bare-integer RAID rule carries no
not-already-set guard — whenever the lowered question contains "risk" and
the message holds a standalone integer n, `open_risks` ends up n,
whatever value it held before. -/
theorem c4_bare_integer_overwrites_unconditionally (q msg : String) (d : Data) (n : Nat)
    (hq : containsSub "risk".data (lowerChars q.data) = true)
    (hn : findFirstInt msg = some n) :
    lookupV (extractSimpleData q msg d) "open_risks" = some (.vInt (Int.ofNat n)) := by
  unfold extractSimpleData
  have e1 := raidNumberStep_sets_risk (lowerChars q.data) msg (emailStep msg d) n hq hn
  have hk1 : hasKey (raidNumberStep (lowerChars q.data) msg (emailStep msg d))
      "open_risks" = true := by
    unfold hasKey
    rw [e1]
    rfl
  have e2 := zeroStep_lookup (lowerChars q.data) (lowerChars msg.data) _ "open_risks" hk1
  have hk2 := hasKey_of_lookup_eq _ _ _ e2 hk1
  have e3 := budgetStep_lookup (lowerChars q.data) (lowerChars msg.data) msg _ "open_risks" hk2
  rw [statusStep_lookup_ne (lowerChars msg.data) _ "open_risks" (by decide), e3, e2]
  exact e1

/-- Claim C4, witness for the amended theorem at a fresh concrete input. -/
theorem c4_witness :
    containsSub "risk".data (lowerChars ("Any risk updates?").data) = true ∧
    findFirstInt "7 new ones" = some 7 ∧
    lookupV (extractSimpleData "Any risk updates?" "7 new ones" []) "open_risks" =
      some (Value.vInt 7) :=
  ⟨by decide, by decide,
    c4_bare_integer_overwrites_unconditionally "Any risk updates?" "7 new ones" [] 7
      (by decide) (by decide)⟩

/-- Claim C5: when the lowered current question contains exactly one of
the four RAID keywords and the message holds a standalone integer n, the
Pattern Extractor assigns n to the corresponding count field,
unconditionally overwriting any previous value (the data `d` is
arbitrary). -/
theorem c5_raid_bare_integer_assignment (q msg : String) (d : Data) (n : Nat) (kw : RaidKw)
    (hx : exclusiveKw (lowerChars q.data) kw = true)
    (hn : findFirstInt msg = some n) :
    lookupV (extractSimpleData q msg d) (raidField kw) = some (.vInt (Int.ofNat n)) := by
  unfold extractSimpleData
  have e1 := raidNumberStep_sets (lowerChars q.data) msg (emailStep msg d) n kw hx hn
  have hk1 : hasKey (raidNumberStep (lowerChars q.data) msg (emailStep msg d))
      (raidField kw) = true := by
    unfold hasKey
    rw [e1]
    rfl
  have e2 := zeroStep_lookup (lowerChars q.data) (lowerChars msg.data) _ (raidField kw) hk1
  have hk2 := hasKey_of_lookup_eq _ _ _ e2 hk1
  have e3 := budgetStep_lookup (lowerChars q.data) (lowerChars msg.data) msg _ (raidField kw) hk2
  rw [statusStep_lookup_ne (lowerChars msg.data) _ (raidField kw) (by cases kw <;> decide), e3, e2]
  exact e1

/-- Claim C5, witness: an "issue" question with message "4" overwrites a
previous `open_issues` value of 9. -/
theorem c5_witness :
    exclusiveKw (lowerChars ("How many open issues?").data) RaidKw.issue = true ∧
    findFirstInt "4" = some 4 ∧
    lookupV (extractSimpleData "How many open issues?" "4"
        [("open_issues", Value.vInt 9)]) "open_issues" = some (Value.vInt 4) :=
  ⟨by decide, by decide,
    c5_raid_bare_integer_assignment "How many open issues?" "4"
      [("open_issues", Value.vInt 9)] 4 RaidKw.issue (by decide) (by decide)⟩

/-- Claim C6, counterexample: the question mentions "budget", the message
"500000 and 200000" holds two numbers and `budget_spent` is unset, yet
nothing is assigned to `budget_spent`, because `total_budget` is already
set and the message does not contain "total" — so the outer guard at
src/main.py line 127 skips the whole assignment block.  The claim says
the second number is assigned to `budget_spent` since it is not set. -/
theorem c6_counterexample_spent_not_assigned :
    hasKey [("total_budget", Value.vInt 500)] "budget_spent" = false ∧
    findAllNumbers "500000 and 200000" = [500000, 200000] ∧
    lookupV (extractSimpleData "How much budget has been spent?" "500000 and 200000"
        [("total_budget", Value.vInt 500)]) "budget_spent" = none :=
  ⟨by decide, by decide, by decide⟩

/-- Claim C6, amended: the budget rule assigns the found numbers only when
the message contains "total" or `total_budget` is not yet set; in that
case the first number goes to `total_budget` (unless set) and the second
to `budget_spent` (unless set).  When `total_budget` is already set and
the message lacks "total", neither budget field changes. -/
theorem c6_budget_assignment_guarded_by_total (q msg : String) (d : Data)
    (n1 : Nat) (rest : List Nat)
    (hb : (containsSub "budget".data (lowerChars q.data) ||
        containsSub "budget".data (lowerChars msg.data)) = true)
    (hnums : findAllNumbers msg = n1 :: rest) :
    (hasKey d "total_budget" = false →
       lookupV (extractSimpleData q msg d) "total_budget" = some (.vInt (Int.ofNat n1)) ∧
       (∀ n2 t, rest = n2 :: t → hasKey d "budget_spent" = false →
         lookupV (extractSimpleData q msg d) "budget_spent" = some (.vInt (Int.ofNat n2)))) ∧
    (hasKey d "total_budget" = true →
       containsSub "total".data (lowerChars msg.data) = false →
       lookupV (extractSimpleData q msg d) "total_budget" = lookupV d "total_budget" ∧
       lookupV (extractSimpleData q msg d) "budget_spent" = lookupV d "budget_spent") := by
  unfold extractSimpleData
  set ql := lowerChars q.data with hql
  set msgl := lowerChars msg.data with hmsgl
  set d3 := zeroStep ql msgl (raidNumberStep ql msg (emailStep msg d)) with hd3
  have eT3 : lookupV d3 "total_budget" = lookupV d "total_budget" := by
    rw [hd3]
    rw [zeroStep_lookup_ne _ _ _ _ (by decide) (by decide) (by decide) (by decide)]
    rw [raidNumberStep_lookup_ne _ _ _ _ (by decide) (by decide) (by decide) (by decide)]
    exact emailStep_lookup_ne msg d _ (by decide)
  have eS3 : lookupV d3 "budget_spent" = lookupV d "budget_spent" := by
    rw [hd3]
    rw [zeroStep_lookup_ne _ _ _ _ (by decide) (by decide) (by decide) (by decide)]
    rw [raidNumberStep_lookup_ne _ _ _ _ (by decide) (by decide) (by decide) (by decide)]
    exact emailStep_lookup_ne msg d _ (by decide)
  have hKT := hasKey_congr_of_lookup d3 d "total_budget" eT3
  have hKS := hasKey_congr_of_lookup d3 d "budget_spent" eS3
  have hbn : budgetStep ql msgl msg d3 = budgetNums msgl (n1 :: rest) d3 := by
    rw [budgetStep_eq_budgetNums ql msgl msg d3 hb, hnums]
  constructor
  · intro hT
    have hT3 : hasKey d3 "total_budget" = false := by
      rw [hKT]
      exact hT
    obtain ⟨c1, c2⟩ := (budgetNums_characterization msgl d3 n1 rest).1 hT3
    constructor
    · rw [statusStep_lookup_ne msgl _ _ (by decide), hbn]
      exact c1
    · intro n2 t heq hS
      have hS3 : hasKey d3 "budget_spent" = false := by
        rw [hKS]
        exact hS
      rw [statusStep_lookup_ne msgl _ _ (by decide), hbn]
      exact c2 n2 t heq hS3
  · intro hT htot
    have hT3 : hasKey d3 "total_budget" = true := by
      rw [hKT]
      exact hT
    have hid := (budgetNums_characterization msgl d3 n1 rest).2 hT3 htot
    constructor
    · rw [statusStep_lookup_ne msgl _ _ (by decide), hbn, hid]
      exact eT3
    · rw [statusStep_lookup_ne msgl _ _ (by decide), hbn, hid]
      exact eS3

/-- Claim C6, witness: both budget numbers are assigned when
`total_budget` is unset. -/
theorem c6_witness :
    findAllNumbers "budget 500000 and 200000" = [500000, 200000] ∧
    lookupV (extractSimpleData "next" "budget 500000 and 200000" []) "total_budget" =
      some (Value.vInt 500000) ∧
    lookupV (extractSimpleData "next" "budget 500000 and 200000" []) "budget_spent" =
      some (Value.vInt 200000) := by
  have h := c6_budget_assignment_guarded_by_total "next" "budget 500000 and 200000" []
    500000 [200000] (by decide) (by decide)
  obtain ⟨c1, c2⟩ := h.1 (by decide)
  exact ⟨by decide, c1, c2 200000 [] rfl (by decide)⟩

/- ------------------------------------------------------------------ -/
/- Lemmas for the fallback chain and the submission builder.           -/
/- ------------------------------------------------------------------ -/

theorem hasKey_of_truthyGet (d : Data) (k : String) (h : truthyGet d k = true) :
    hasKey d k = true := by
  unfold truthyGet at h
  unfold hasKey
  cases hl : lookupV d k with
  | none =>
    rw [hl] at h
    simp at h
  | some v => rfl

theorem walkFallback_find_some (t : List (String × String)) (d : Data) (p : String × String)
    (h : t.find? (fun x => !hasKey d x.1) = some p) : walkFallback t d = p.2 := by
  induction t with
  | nil => simp [List.find?] at h
  | cons a rest ih =>
    obtain ⟨f, q⟩ := a
    by_cases hf : hasKey d f = true
    · rw [List.find?_cons_of_neg rest (by simp [hf])] at h
      simp only [walkFallback]
      rw [if_pos hf]
      exact ih h
    · simp at hf
      rw [List.find?_cons_of_pos rest (by simp [hf])] at h
      cases h
      simp only [walkFallback]
      rw [if_neg (by rw [hf]; exact Bool.false_ne_true)]

theorem walkFallback_find_none (t : List (String × String)) (d : Data)
    (h : t.find? (fun x => !hasKey d x.1) = none) : walkFallback t d = reviewFallback := by
  induction t with
  | nil => rfl
  | cons a rest ih =>
    obtain ⟨f, q⟩ := a
    by_cases hf : hasKey d f = true
    · rw [List.find?_cons_of_neg rest (by simp [hf])] at h
      simp only [walkFallback]
      rw [if_pos hf]
      exact ih h
    · simp at hf
      rw [List.find?_cons_of_pos rest (by simp [hf])] at h
      cases h

theorem walkFallback_ne_empty (t : List (String × String)) (d : Data)
    (hq : ∀ p ∈ t, p.2 ≠ "") : walkFallback t d ≠ "" := by
  induction t with
  | nil =>
    intro hc
    simp only [walkFallback] at hc
    exact absurd hc (by decide)
  | cons a rest ih =>
    obtain ⟨f, q⟩ := a
    simp only [walkFallback]
    split
    · exact ih (fun p hp => hq p (List.mem_cons_of_mem _ hp))
    · exact hq (f, q) (List.mem_cons_self _ _)

theorem setSubmissionDefaults_lookup_ne (d : Data) (k : String)
    (h1 : k ≠ "update_date") (h2 : k ≠ "update_title") :
    lookupV (setSubmissionDefaults d) k = lookupV d k := by
  simp only [setSubmissionDefaults]
  split
  · split
    · rfl
    · exact lookup_setV_ne _ _ _ _ (Ne.symm h2)
  · split
    · exact lookup_setV_ne _ _ _ _ (Ne.symm h1)
    · rw [lookup_setV_ne _ _ _ _ (Ne.symm h2)]
      exact lookup_setV_ne _ _ _ _ (Ne.symm h1)

/- ------------------------------------------------------------------ -/
/- Claim theorems: C3, C7, C8, C9 and C10.                             -/
/- ------------------------------------------------------------------ -/

/-- Claim C3, counterexample: a completed session (no missing required
field) whose `total_budget` holds the string "not a number" makes the
Submission Builder fail — `int("not a number")` raises — instead of
producing a payload carrying 0 as the claim states. -/
theorem c3_counterexample_build_fails_on_nonnumeric :
    missingFields badBudgetData = [] ∧ prepareSubmissionData badBudgetData = none :=
  ⟨by decide, by decide⟩

/-- Claim C3, amended: the builder's `int(data.get(k, 0))` substitutes 0
only when the field is absent; when `total_budget` holds a non-numeric
string the coercion raises and the build fails rather than carrying 0. -/
theorem c3_nonnumeric_string_fails_build (d : Data) (s : String) :
    (lookupV d "total_budget" = some (.vStr s) → pyIntOfStr s = none →
       prepareSubmissionData d = none) ∧
    (lookupV d "total_budget" = none → coerceIntField d "total_budget" = some 0) := by
  constructor
  · intro h1 h2
    have hpres : lookupV (setSubmissionDefaults d) "total_budget" = some (.vStr s) := by
      rw [setSubmissionDefaults_lookup_ne d _ (by decide) (by decide)]
      exact h1
    have hc : coerceIntField (setSubmissionDefaults d) "total_budget" = none := by
      unfold coerceIntField
      rw [hpres]
      exact h2
    unfold prepareSubmissionData buildWebhookData
    rw [hc]
    rfl
  · intro h
    unfold coerceIntField
    rw [h]
    rfl

/-- Claim C3, witness: the amended theorem at the concrete completed
session with `total_budget` = "not a number", plus the absent-key default. -/
theorem c3_witness :
    pyIntOfStr "not a number" = none ∧
    prepareSubmissionData badBudgetData = none ∧
    coerceIntField [] "total_budget" = some 0 :=
  ⟨by decide,
    (c3_nonnumeric_string_fails_build badBudgetData "not a number").1 (by decide) (by decide),
    (c3_nonnumeric_string_fails_build [] "x").2 (by decide)⟩

/-- Claim C7: the deterministic fallback of `_get_claude_help` walks
exactly the claimed priority order, returns the canned question of the
first field whose key is missing from the session data, returns the
review message when nothing is missing, and never returns an empty
question. -/
theorem c7_fallback_priority_and_nonempty :
    cannedTable.map Prod.fst =
      ["program_name", "program_manager", "program_manager_email", "sponsor_name",
       "overall_status", "status_commentary", "key_accomplishments", "upcoming_milestones",
       "total_budget", "budget_spent", "open_risks", "open_issues", "open_assumptions",
       "open_dependencies"] ∧
    (∀ (d : Data) (p : String × String),
       cannedTable.find? (fun x => !hasKey d x.1) = some p → fallbackQuestion d = p.2) ∧
    (∀ d : Data, cannedTable.find? (fun x => !hasKey d x.1) = none →
       fallbackQuestion d = reviewFallback) ∧
    (∀ d : Data, fallbackQuestion d ≠ "") := by
  refine ⟨by decide, ?_, ?_, ?_⟩
  · intro d p h
    exact walkFallback_find_some cannedTable d p h
  · intro d h
    exact walkFallback_find_none cannedTable d h
  · intro d
    exact walkFallback_ne_empty cannedTable d (by decide)

/-- Claim C7, witness: an empty session gets the program-name question;
a fully-populated session still gets a non-empty review message. -/
theorem c7_witness :
    fallbackQuestion [] = "What\x27s the name of your program?" ∧
    fallbackQuestion fullDataOK = reviewFallback :=
  ⟨c7_fallback_priority_and_nonempty.2.1 []
      ("program_name", "What\x27s the name of your program?") (by decide),
    c7_fallback_priority_and_nonempty.2.2.1 fullDataOK (by decide)⟩

/-- Claim C8: over any transport outcome of the single POST, the Webhook
Client returns true iff the response status is exactly 200, returns false
on every exception, and the constants match the contract: a 30-second
timeout and the fixed endpoint URL. -/
theorem c8_submit_true_iff_http_200 :
    (∀ outcome : Except String Nat,
       submitToWebhook outcome = true ↔ outcome = .ok 200) ∧
    webhookTimeoutSeconds = 30 ∧
    webhookUrl = "https://natsha.pythonanywhere.com/webhook/fortnightly-update-direct" := by
  refine ⟨?_, rfl, rfl⟩
  intro outcome
  cases outcome with
  | ok status => simp [submitToWebhook]
  | error e => simp [submitToWebhook]

/-- Claim C9: a session that passes the Collecting-phase completeness
check (no missing required field) already holds `update_date` and
`update_title`, so the Submission Builder's default-substitution step is
the identity — the "2024-10-23" and "Program Update" branches never run. -/
theorem c9_complete_sessions_skip_defaults (d : Data)
    (h : missingFields d = []) : setSubmissionDefaults d = d := by
  have key : ∀ f, f ∈ requiredFields → truthyGet d f = true := by
    intro f hf
    have hall := List.filter_eq_nil_iff.mp h f hf
    cases hval : truthyGet d f with
    | false => exact absurd (by rw [hval]; rfl) hall
    | true => rfl
  have h1 : hasKey d "update_date" = true :=
    hasKey_of_truthyGet d _ (key "update_date" (by decide))
  have h2 : hasKey d "update_title" = true :=
    hasKey_of_truthyGet d _ (key "update_title" (by decide))
  simp only [setSubmissionDefaults]
  rw [if_pos h1, if_pos h2]

/-- Claim C9, witness: the fully-populated session is complete and the
default step leaves it unchanged. -/
theorem c9_witness :
    missingFields fullDataOK = [] ∧ setSubmissionDefaults fullDataOK = fullDataOK :=
  ⟨by decide, c9_complete_sessions_skip_defaults fullDataOK (by decide)⟩

/-- Claim C10: the Complete-phase soft restart resets data to the initial
dict, clears the history and routes through the intro handler (phase
becomes "collecting", reply is the welcome text) — but `current_question`
is untouched, so the Pattern Extractor of the next Collecting-phase turn
still disambiguates against the previous cycle's final question. -/
theorem c10_restart_preserves_current_question (s : Session) (m : String) :
    (handleCompletion s m).1.currentQuestion = s.currentQuestion ∧
    (handleCompletion s m).1.data = initData ∧
    (handleCompletion s m).1.history = [] ∧
    (handleCompletion s m).1.phase = "collecting" ∧
    (handleCompletion s m).2 = welcomeMessage ∧
    (∀ msg2 d, extractSimpleData (((handleCompletion s m).1.currentQuestion).getD "") msg2 d =
       extractSimpleData ((s.currentQuestion).getD "") msg2 d) :=
  ⟨rfl, rfl, rfl, rfl, rfl, fun _ _ => rfl⟩

end PMOBot
